import Mathlib

/-
Shallow embedding of the compound-component example from the repository:
the Provider component (PostCardComponent), its React context channel, the
usage guard hook (usePostCardContext), the dependent leaf components
(Id, Title, Content, Author, Actions) and the rejected counter-example
component (AntiPostCard).  Rendering is modelled as a pure function from
the ambient channel value to a tree of nodes; a thrown JavaScript error is
modelled as Except.error carrying the error message.
-/

/-- The inline user object of PostCardProps: `\x7b id: number; name: string \x7d`. -/
structure PostUser where
  id : Int
  name : String
deriving DecidableEq, Repr

/-- `PostCardProps` from PostCardComponent.tsx.  The optional field
`isOnProfilePage?: boolean` is modelled as `Option Bool` (absent = `none`). -/
structure PostCardProps where
  id : Int
  title : String
  content : String
  user : PostUser
  isOnProfilePage : Option Bool
deriving DecidableEq, Repr

/-- `PostCardContextType` from PostCardComponent.tsx: wraps exactly the post record. -/
structure PostCardContextType where
  post : PostCardProps
deriving DecidableEq, Repr

/-- JavaScript truthiness of a `boolean | undefined` value: `undefined` is falsy. -/
def jsTruthy : Option Bool → Bool
  | some b => b
  | none => false

mutual

/-- A rendered React node: null, a text node, or an element with a tag, a
class attribute and a list of children. -/
inductive RNode where
  | nil : RNode
  | text (s : String) : RNode
  | elem (tag cls : String) (children : RNodeList) : RNode

/-- A list of rendered nodes (mutual with RNode). -/
inductive RNodeList where
  | nil : RNodeList
  | cons (r : RNode) (rs : RNodeList) : RNodeList

end

/-- Convert an ordinary list of nodes into an RNodeList. -/
def rl : List RNode → RNodeList
  | [] => RNodeList.nil
  | r :: rs => RNodeList.cons r (rl rs)

/-- The fixed error message thrown by the usage guard in usePostCardContext.tsx. -/
def missingProviderMessage : String :=
  "PostCardComponent.Title must be used within a PostCardComponent"

/-- The usage guard hook from usePostCardContext.tsx: reads the nearest
context value; throws the fixed error when it is absent, returns it unchanged
when present. -/
def usePostCardContext (ctx : Option PostCardContextType) :
    Except String PostCardContextType :=
  match ctx with
  | none => Except.error missingProviderMessage
  | some c => Except.ok c

/-- The markup returned by PostCardId for a given post (a div wrapping a span
holding the id). -/
def idFragment (post : PostCardProps) : RNode :=
  RNode.elem "div" "bg-gray-200 h-32 flex items-center justify-center"
    (rl [RNode.elem "span" "text-black font-bold text-center block"
      (rl [RNode.text (toString post.id)])])

/-- The markup returned by PostCardTitle for a given post. -/
def titleFragment (post : PostCardProps) : RNode :=
  RNode.elem "h2" "text-2xl font-bold text-black mb-2" (rl [RNode.text post.title])

/-- The markup returned by PostCardContent for a given post. -/
def contentFragment (post : PostCardProps) : RNode :=
  RNode.elem "p" "text-gray-700 text-sm mb-4 leading-relaxed"
    (rl [RNode.text post.content])

/-- The author line markup: `By <span>\x7bname\x7d</span>`. -/
def authorLine (name : String) : RNode :=
  RNode.elem "p" "text-xs text-gray-600 font-medium mb-6"
    (rl [RNode.text "By ", RNode.elem "span" "font-semibold text-black"
      (rl [RNode.text name])])

/-- The markup returned by PostCardAuthor for a given post: null when the
isOnProfilePage flag is truthy, the author line otherwise. -/
def authorFragment (post : PostCardProps) : RNode :=
  if jsTruthy post.isOnProfilePage then RNode.nil
  else authorLine post.user.name

/-- The Read More button of PostCardActions. -/
def readMoreButton : RNode :=
  RNode.elem "button"
    "flex-1 bg-black text-white px-4 py-2 rounded-md font-medium hover:bg-gray-800 transition-colors duration-200"
    (rl [RNode.text "Read More"])

/-- The Like button of PostCardActions. -/
def likeButton : RNode :=
  RNode.elem "button"
    "flex-1 border-2 border-black text-black px-4 py-2 rounded-md font-medium hover:bg-gray-100 transition-colors duration-200"
    (rl [RNode.text "Like"])

/-- The markup returned by PostCardActions: a fixed div with the two buttons. -/
def actionsFragment : RNode :=
  RNode.elem "div" "flex gap-3" (rl [readMoreButton, likeButton])

/-- `PostCardComponent.Id`: invokes the usage guard, then renders the id fragment. -/
def PostCardId (ctx : Option PostCardContextType) : Except String RNode :=
  match usePostCardContext ctx with
  | Except.error e => Except.error e
  | Except.ok c => Except.ok (idFragment c.post)

/-- `PostCardComponent.Title`: invokes the usage guard, then renders the title fragment. -/
def PostCardTitle (ctx : Option PostCardContextType) : Except String RNode :=
  match usePostCardContext ctx with
  | Except.error e => Except.error e
  | Except.ok c => Except.ok (titleFragment c.post)

/-- `PostCardComponent.Content`: invokes the usage guard, then renders the body fragment. -/
def PostCardContent (ctx : Option PostCardContextType) : Except String RNode :=
  match usePostCardContext ctx with
  | Except.error e => Except.error e
  | Except.ok c => Except.ok (contentFragment c.post)

/-- `PostCardComponent.Author`: invokes the usage guard; returns null when the
isOnProfilePage flag is truthy, the author line otherwise. -/
def PostCardAuthor (ctx : Option PostCardContextType) : Except String RNode :=
  match usePostCardContext ctx with
  | Except.error e => Except.error e
  | Except.ok c => Except.ok (authorFragment c.post)

/-- `PostCardComponent.Actions`: never reads the context; always returns the
fixed actions markup. -/
def PostCardActions (_ctx : Option PostCardContextType) : Except String RNode :=
  Except.ok actionsFragment

mutual

/-- A child subtree a caller may place inside the Provider: one of the five
named dependent leaves, raw text, or arbitrary wrapping markup with further
children. -/
inductive Child where
  | leafId : Child
  | leafTitle : Child
  | leafContent : Child
  | leafAuthor : Child
  | leafActions : Child
  | rawText (s : String) : Child
  | markup (tag cls : String) (children : ChildList) : Child

/-- A list of child subtrees (mutual with Child). -/
inductive ChildList where
  | nil : ChildList
  | cons (c : Child) (cs : ChildList) : ChildList

end

/-- Convert an ordinary list of children into a ChildList. -/
def cl : List Child → ChildList
  | [] => ChildList.nil
  | c :: cs => ChildList.cons c (cl cs)

mutual

/-- Render one child subtree under a given ambient channel value.  Each leaf
renders itself from the channel; wrapping markup passes the channel down
unchanged to its own children. -/
def renderChild (ctx : Option PostCardContextType) : Child → Except String RNode
  | Child.leafId => PostCardId ctx
  | Child.leafTitle => PostCardTitle ctx
  | Child.leafContent => PostCardContent ctx
  | Child.leafAuthor => PostCardAuthor ctx
  | Child.leafActions => PostCardActions ctx
  | Child.rawText s => Except.ok (RNode.text s)
  | Child.markup tag cls cs =>
      match renderChildList ctx cs with
      | Except.error e => Except.error e
      | Except.ok rs => Except.ok (RNode.elem tag cls rs)

/-- Render a list of child subtrees in order under a given channel value; the
first thrown error aborts the render. -/
def renderChildList (ctx : Option PostCardContextType) :
    ChildList → Except String RNodeList
  | ChildList.nil => Except.ok RNodeList.nil
  | ChildList.cons c cs =>
      match renderChild ctx c with
      | Except.error e => Except.error e
      | Except.ok r =>
          match renderChildList ctx cs with
          | Except.error e => Except.error e
          | Except.ok rs => Except.ok (RNodeList.cons r rs)

end

/-- The class attribute of the wrapping div rendered by PostCardComponent. -/
def providerCls : String :=
  "w-full bg-white rounded-lg shadow-md hover:shadow-lg transition-shadow duration-300 overflow-hidden border border-gray-300"

/-- The Provider, `PostCardComponent`: publishes the post record on the context
channel for its subtree and renders its children unchanged inside a wrapping div. -/
def PostCardComponent (post : PostCardProps) (children : ChildList) :
    Except String RNode :=
  match renderChildList (some { post := post }) children with
  | Except.error e => Except.error e
  | Except.ok rs => Except.ok (RNode.elem "div" providerCls rs)

mutual

/-- The node a child renders to under a Provider publishing the given post:
a total function of the post and the child alone. -/
def renderedUnder (post : PostCardProps) : Child → RNode
  | Child.leafId => idFragment post
  | Child.leafTitle => titleFragment post
  | Child.leafContent => contentFragment post
  | Child.leafAuthor => authorFragment post
  | Child.leafActions => actionsFragment
  | Child.rawText s => RNode.text s
  | Child.markup tag cls cs => RNode.elem tag cls (renderedList post cs)

/-- Pointwise rendering of a child list under a Provider publishing the given post. -/
def renderedList (post : PostCardProps) : ChildList → RNodeList
  | ChildList.nil => RNodeList.nil
  | ChildList.cons c cs => RNodeList.cons (renderedUnder post c) (renderedList post cs)

end

mutual

/-- Flatten a rendered node to its text content in document order. -/
def textOf : RNode → String
  | RNode.nil => ""
  | RNode.text s => s
  | RNode.elem _ _ cs => textOfList cs

/-- Flatten a list of rendered nodes to their concatenated text content. -/
def textOfList : RNodeList → String
  | RNodeList.nil => ""
  | RNodeList.cons r rs => textOf r ++ textOfList rs

end

/-- The text of each direct child of a rendered node, in document order. -/
def fragmentTexts : RNodeList → List String
  | RNodeList.nil => []
  | RNodeList.cons r rs => textOf r :: fragmentTexts rs

/-- The texts of the direct children of an element, in document order. -/
def nodeTexts : RNode → List String
  | RNode.elem _ _ cs => fragmentTexts cs
  | r => [textOf r]

/-- Whether a rendered node is the null node. -/
def isNilNode : RNode → Bool
  | RNode.nil => true
  | _ => false

/-- Whether a render result is a successful render (no thrown error). -/
def isOkRender : Except String RNode → Bool
  | Except.ok _ => true
  | Except.error _ => false

mutual

/-- Under a Provider publishing `post`, every child renders successfully to
`renderedUnder post`, a function of the post and the child alone. -/
theorem renderChild_some (post : PostCardProps) (c : Child) :
    renderChild (some { post := post }) c = Except.ok (renderedUnder post c) :=
  match c with
  | Child.leafId => rfl
  | Child.leafTitle => rfl
  | Child.leafContent => rfl
  | Child.leafAuthor => rfl
  | Child.leafActions => rfl
  | Child.rawText _ => rfl
  | Child.markup tag cls cs => by
      simp [renderChild, renderChildList_some post cs, renderedUnder]

/-- Under a Provider publishing `post`, a child list renders successfully and
pointwise to `renderedList post`. -/
theorem renderChildList_some (post : PostCardProps) (cs : ChildList) :
    renderChildList (some { post := post }) cs = Except.ok (renderedList post cs) :=
  match cs with
  | ChildList.nil => rfl
  | ChildList.cons c cs => by
      simp [renderChildList, renderChild_some post c, renderChildList_some post cs,
        renderedList]

end

mutual

/-- If rendering a child throws, the channel was absent and the thrown message
is the fixed usage-guard message. -/
theorem renderChild_error (ctx : Option PostCardContextType) (c : Child) (e : String)
    (h : renderChild ctx c = Except.error e) :
    ctx = none ∧ e = missingProviderMessage :=
  match ctx, c with
  | none, Child.leafId => ⟨rfl, by
      simp [renderChild, PostCardId, usePostCardContext] at h; exact h.symm⟩
  | none, Child.leafTitle => ⟨rfl, by
      simp [renderChild, PostCardTitle, usePostCardContext] at h; exact h.symm⟩
  | none, Child.leafContent => ⟨rfl, by
      simp [renderChild, PostCardContent, usePostCardContext] at h; exact h.symm⟩
  | none, Child.leafAuthor => ⟨rfl, by
      simp [renderChild, PostCardAuthor, usePostCardContext] at h; exact h.symm⟩
  | none, Child.leafActions => by
      simp [renderChild, PostCardActions] at h
  | none, Child.rawText _ => by
      simp [renderChild] at h
  | none, Child.markup tag cls cs => by
      revert h
      simp only [renderChild]
      match h2 : renderChildList none cs with
      | Except.error e2 =>
          intro h
          cases h
          exact ⟨trivial, (renderChildList_error none cs e h2).2⟩
      | Except.ok rs => intro h; cases h
  | some v, c => by
      rw [show (some v : Option PostCardContextType) = some { post := v.post } from rfl,
        renderChild_some] at h
      cases h

/-- If rendering a child list throws, the channel was absent and the thrown
message is the fixed usage-guard message. -/
theorem renderChildList_error (ctx : Option PostCardContextType) (cs : ChildList)
    (e : String) (h : renderChildList ctx cs = Except.error e) :
    ctx = none ∧ e = missingProviderMessage :=
  match cs with
  | ChildList.nil => by simp [renderChildList] at h
  | ChildList.cons c cs => by
      revert h
      simp only [renderChildList]
      match h1 : renderChild ctx c with
      | Except.error e1 =>
          intro h
          cases h
          exact renderChild_error ctx c e h1
      | Except.ok r =>
          match h2 : renderChildList ctx cs with
          | Except.error e2 =>
              intro h
              cases h
              exact renderChildList_error ctx cs e h2
          | Except.ok rs => intro h; cases h

end

/-- The Provider itself never throws: rendering PostCardComponent succeeds for
every post and every child arrangement. -/
theorem PostCardComponent_ok (post : PostCardProps) (children : ChildList) :
    PostCardComponent post children =
      Except.ok (RNode.elem "div" providerCls (renderedList post children)) := by
  simp [PostCardComponent, renderChildList_some post children]

/-- `AntiPostCardProps` from AntiPostCard.tsx: like PostCardProps plus the
required `shouldDisplayButtons` flag. -/
structure AntiPostCardProps where
  id : Int
  title : String
  content : String
  user : PostUser
  isOnProfilePage : Option Bool
  shouldDisplayButtons : Bool
deriving DecidableEq, Repr

/-- The rejected counter-example component `AntiPostCard`: renders the whole
card in one fixed tree, suppressing the author line when the isOnProfilePage
flag is truthy and the buttons when shouldDisplayButtons is false. -/
def AntiPostCard (post : AntiPostCardProps) : RNode :=
  RNode.elem "div"
    "w-full bg-white rounded-lg shadow-md hover:shadow-lg transition-shadow duration-300 overflow-hidden border border-gray-300"
    (rl [RNode.elem "div" "bg-gray-200 h-32 flex items-center justify-center"
          (rl [RNode.elem "span" "text-black font-bold text-center block"
            (rl [RNode.text (toString post.id)])]),
         RNode.elem "div" "p-6"
          (rl [RNode.elem "h2" "text-2xl font-bold text-black mb-2"
                (rl [RNode.text post.title]),
               RNode.elem "p" "text-gray-700 text-sm mb-4 leading-relaxed"
                (rl [RNode.text post.content]),
               (if jsTruthy post.isOnProfilePage then RNode.nil
                else authorLine post.user.name),
               (if post.shouldDisplayButtons then
                  RNode.elem "div" "flex gap-3" (rl [readMoreButton, likeButton])
                else RNode.nil)])])

/-- Index into a rendered node list (out of range gives null). -/
def rnodeListGet : RNodeList → Nat → RNode
  | RNodeList.nil, _ => RNode.nil
  | RNodeList.cons r _, 0 => r
  | RNodeList.cons _ rs, n + 1 => rnodeListGet rs n

/-- The children of a rendered element (empty for text and null nodes). -/
def nodeChildren : RNode → RNodeList
  | RNode.elem _ _ cs => cs
  | _ => RNodeList.nil

/-- The position in the AntiPostCard output where the author line appears:
third child of the inner p-6 div. -/
def antiAuthorSlot (r : RNode) : RNode :=
  rnodeListGet (nodeChildren (rnodeListGet (nodeChildren r) 1)) 2

/-- The position in the AntiPostCard output where the action buttons appear:
fourth child of the inner p-6 div. -/
def antiButtonsSlot (r : RNode) : RNode :=
  rnodeListGet (nodeChildren (rnodeListGet (nodeChildren r) 1)) 3

/-- What the author slot of an AntiPostCard render holds. -/
theorem antiAuthorSlot_render (post : AntiPostCardProps) :
    antiAuthorSlot (AntiPostCard post) =
      (if jsTruthy post.isOnProfilePage then RNode.nil
       else authorLine post.user.name) := rfl

/-- What the buttons slot of an AntiPostCard render holds. -/
theorem antiButtonsSlot_render (post : AntiPostCardProps) :
    antiButtonsSlot (AntiPostCard post) =
      (if post.shouldDisplayButtons then
        RNode.elem "div" "flex gap-3" (rl [readMoreButton, likeButton])
       else RNode.nil) := rfl

/-- Two Provider instances rendered side by side on one page, as in App.tsx:
each renders independently, first thrown error aborting. -/
def renderSiblingCards (p1 p2 : PostCardProps) (cs1 cs2 : ChildList) :
    Except String (RNode × RNode) :=
  match PostCardComponent p1 cs1 with
  | Except.error e => Except.error e
  | Except.ok r1 =>
      match PostCardComponent p2 cs2 with
      | Except.error e => Except.error e
      | Except.ok r2 => Except.ok (r1, r2)

/-- The concrete record of the §8 scenario of the spec (also the third card in
the App page): id 3, title T, body B, author A, not on a profile page. -/
def concretePost : PostCardProps :=
  { id := 3, title := "T", content := "B", user := { id := 3, name := "A" },
    isOnProfilePage := some false }

/-- Claim C1 (counterexample): rendering the actions-fragment with no enclosing
Provider does NOT raise the Missing-Provider-Usage error; it succeeds with the
static actions markup, refuting the claim for that leaf. -/
theorem claim1_counterexample :
    renderChild none Child.leafActions = Except.ok actionsFragment ∧
    isOkRender (renderChild none Child.leafActions) = true :=
  ⟨rfl, rfl⟩

/-- Claim C1 (amended): the identifier-, title-, body- and author-fragments
each raise the Missing-Provider-Usage error when rendered with no enclosing
Provider, while the actions-fragment never invokes the usage guard and renders
its static markup without error. -/
theorem claim1_missing_provider_guard :
    renderChild none Child.leafId = Except.error missingProviderMessage ∧
    renderChild none Child.leafTitle = Except.error missingProviderMessage ∧
    renderChild none Child.leafContent = Except.error missingProviderMessage ∧
    renderChild none Child.leafAuthor = Except.error missingProviderMessage ∧
    renderChild none Child.leafActions = Except.ok actionsFragment :=
  ⟨rfl, rfl, rfl, rfl, rfl⟩

/-- Claim C2: rendering Provider(R) with any children succeeds and renders each
child at its position through renderedUnder, a pointwise function of R and that
child alone — so each included leaf is unaffected by which other leaves are
present, by their order, or by interleaved markup — and each data leaf yields
the text of exactly the corresponding field of R (the author leaf following its
specified suppression rule). -/
theorem claim2_fragments_reflect_record (post : PostCardProps) (children : ChildList) :
    PostCardComponent post children =
      Except.ok (RNode.elem "div" providerCls (renderedList post children)) ∧
    (∀ c cs, renderedList post (ChildList.cons c cs) =
      RNodeList.cons (renderedUnder post c) (renderedList post cs)) ∧
    textOf (renderedUnder post Child.leafId) = toString post.id ∧
    textOf (renderedUnder post Child.leafTitle) = post.title ∧
    textOf (renderedUnder post Child.leafContent) = post.content ∧
    textOf (renderedUnder post Child.leafAuthor) =
      (if jsTruthy post.isOnProfilePage then "" else "By " ++ post.user.name) := by
  refine ⟨PostCardComponent_ok post children, fun c cs => rfl, ?_, ?_, ?_, ?_⟩
  · simp [renderedUnder, idFragment, textOf, textOfList, rl, String.append_empty]
  · simp [renderedUnder, titleFragment, textOf, textOfList, rl, String.append_empty]
  · simp [renderedUnder, contentFragment, textOf, textOfList, rl, String.append_empty]
  · cases h : jsTruthy post.isOnProfilePage <;>
      simp [renderedUnder, authorFragment, h, authorLine, textOf, textOfList, rl,
        String.append_empty]

/-- Claim C3: inside a Provider, the author-fragment renders null when the
isOnProfilePage flag of the record is true, and renders the By-name line when
the flag is false. -/
theorem claim3_author_conditional (post : PostCardProps) :
    (post.isOnProfilePage = some true →
      PostCardAuthor (some { post := post }) = Except.ok RNode.nil) ∧
    (post.isOnProfilePage = some false →
      PostCardAuthor (some { post := post }) = Except.ok (authorLine post.user.name)) := by
  constructor
  · intro h
    simp [PostCardAuthor, usePostCardContext, authorFragment, jsTruthy, h]
  · intro h
    simp [PostCardAuthor, usePostCardContext, authorFragment, jsTruthy, h]

/-- A concrete record whose isOnProfilePage flag is true. -/
def profilePost : PostCardProps :=
  { id := 1, title := "t", content := "c", user := { id := 1, name := "N" },
    isOnProfilePage := some true }

/-- The same concrete record with the flag set to false. -/
def feedPost : PostCardProps :=
  { profilePost with isOnProfilePage := some false }

/-- A concrete record with the optional flag absent. -/
def noFlagPost : PostCardProps :=
  { id := 5, title := "t", content := "c", user := { id := 5, name := "M" },
    isOnProfilePage := none }

/-- Witness for claim C3 at a concrete record with each flag value. -/
theorem claim3_author_conditional_witness :
    PostCardAuthor (some { post := profilePost }) = Except.ok RNode.nil ∧
    PostCardAuthor (some { post := feedPost }) = Except.ok (authorLine "N") :=
  ⟨(claim3_author_conditional profilePost).1 rfl,
   (claim3_author_conditional feedPost).2 rfl⟩

/-- Claim C4: the usage guard returns a present channel value unchanged and
throws exactly on absence; moreover its throw is the only failure path of the
mechanism — any error from rendering any child means the channel was absent and
carries the guard message, and the Provider itself never fails. -/
theorem claim4_guard_only_failure :
    (∀ v : PostCardContextType, usePostCardContext (some v) = Except.ok v) ∧
    usePostCardContext none = Except.error missingProviderMessage ∧
    (∀ (ctx : Option PostCardContextType) (c : Child) (e : String),
      renderChild ctx c = Except.error e →
        ctx = none ∧ e = missingProviderMessage) ∧
    (∀ (post : PostCardProps) (children : ChildList),
      isOkRender (PostCardComponent post children) = true) := by
  refine ⟨fun v => rfl, rfl, fun ctx c e h => renderChild_error ctx c e h, ?_⟩
  intro post children
  simp [PostCardComponent_ok, isOkRender]

/-- Witness for claim C4: its inner implication discharged at the concrete
failing render of the title leaf outside any Provider. -/
theorem claim4_guard_only_failure_witness :
    usePostCardContext (some { post := concretePost }) =
      Except.ok { post := concretePost } ∧
    ((none : Option PostCardContextType) = none ∧
      missingProviderMessage = missingProviderMessage) ∧
    isOkRender (PostCardComponent concretePost (cl [Child.leafId])) = true :=
  ⟨claim4_guard_only_failure.1 _,
   claim4_guard_only_failure.2.2.1 none Child.leafTitle missingProviderMessage rfl,
   claim4_guard_only_failure.2.2.2 concretePost (cl [Child.leafId])⟩

/-- Claim C5: two sibling Provider instances render independently — the page
render succeeds with each card a function of its own record and children only,
and changing one record leaves the other card byte-identical (two-run
noninterference across sibling subtrees). -/
theorem claim5_sibling_isolation (p1 p2 q1 q2 : PostCardProps)
    (cs1 cs2 : ChildList) :
    renderSiblingCards p1 p2 cs1 cs2 =
      Except.ok (RNode.elem "div" providerCls (renderedList p1 cs1),
                 RNode.elem "div" providerCls (renderedList p2 cs2)) ∧
    (renderSiblingCards p1 p2 cs1 cs2).map Prod.fst =
      (renderSiblingCards p1 q2 cs1 cs2).map Prod.fst ∧
    (renderSiblingCards p1 p2 cs1 cs2).map Prod.snd =
      (renderSiblingCards q1 p2 cs1 cs2).map Prod.snd := by
  refine ⟨?_, ?_, ?_⟩ <;>
    simp [renderSiblingCards, PostCardComponent_ok, Except.map]

/-- Claim C6: the concrete §8 scenario — Provider(R) for R with id 3, title T,
body B, author A, flag false, with the four data leaves in order, renders the
texts 3, T, B, By A in document order. -/
theorem claim6_concrete_scenario :
    (PostCardComponent concretePost
      (cl [Child.leafId, Child.leafTitle, Child.leafContent, Child.leafAuthor])).map
        nodeTexts = Except.ok ["3", "T", "B", "By A"] := rfl

/-- Claim C7: the actions-fragment renders the same fixed markup under every
channel value — two buttons with texts Read More and Like — independent of any
field of the record. -/
theorem claim7_actions_static (ctx ctx2 : Option PostCardContextType) :
    renderChild ctx Child.leafActions = Except.ok actionsFragment ∧
    renderChild ctx Child.leafActions = renderChild ctx2 Child.leafActions ∧
    nodeTexts actionsFragment = ["Read More", "Like"] :=
  ⟨rfl, rfl, rfl⟩

/-- Claim C8: in AntiPostCard the two display flags are orthogonal — the author
line is rendered iff the isOnProfilePage flag is not truthy, the buttons are
rendered iff shouldDisplayButtons is true, and changing either flag leaves the
other slot of the output unchanged. -/
theorem claim8_anti_flags_orthogonal (post : AntiPostCardProps) :
    (isNilNode (antiAuthorSlot (AntiPostCard post)) = false ↔
      jsTruthy post.isOnProfilePage = false) ∧
    (isNilNode (antiButtonsSlot (AntiPostCard post)) = false ↔
      post.shouldDisplayButtons = true) ∧
    (∀ b : Bool,
      antiAuthorSlot (AntiPostCard { post with shouldDisplayButtons := b }) =
        antiAuthorSlot (AntiPostCard post)) ∧
    (∀ f : Option Bool,
      antiButtonsSlot (AntiPostCard { post with isOnProfilePage := f }) =
        antiButtonsSlot (AntiPostCard post)) := by
  refine ⟨?_, ?_, ?_, ?_⟩
  · rw [antiAuthorSlot_render]
    cases h : jsTruthy post.isOnProfilePage <;> simp [isNilNode, authorLine]
  · rw [antiButtonsSlot_render]
    cases h : post.shouldDisplayButtons <;> simp [h, isNilNode]
  · intro b
    simp [antiAuthorSlot_render]
  · intro f
    simp [antiButtonsSlot_render]

/-- Claim C9: when the optional isOnProfilePage field is absent, the
author-fragment behaves exactly as with the flag set to false — it renders the
By-name line rather than suppressing it. -/
theorem claim9_absent_flag_defaults (post : PostCardProps)
    (h : post.isOnProfilePage = none) :
    PostCardAuthor (some { post := post }) =
      PostCardAuthor (some { post := { post with isOnProfilePage := some false } }) ∧
    PostCardAuthor (some { post := post }) = Except.ok (authorLine post.user.name) := by
  constructor <;>
    simp [PostCardAuthor, usePostCardContext, authorFragment, jsTruthy, h]

/-- Witness for claim C9 at a concrete record with the flag absent. -/
theorem claim9_absent_flag_defaults_witness :
    PostCardAuthor (some { post := noFlagPost }) = Except.ok (authorLine "M") :=
  (claim9_absent_flag_defaults noFlagPost rfl).2

/-- Claim C10: the usage guard always throws the one fixed message naming the
title sub-component, and every guarded leaf rendered outside a Provider
surfaces exactly that message, whichever leaf failed. -/
theorem claim10_fixed_error_message :
    usePostCardContext none =
      Except.error "PostCardComponent.Title must be used within a PostCardComponent" ∧
    renderChild none Child.leafId =
      Except.error "PostCardComponent.Title must be used within a PostCardComponent" ∧
    renderChild none Child.leafTitle =
      Except.error "PostCardComponent.Title must be used within a PostCardComponent" ∧
    renderChild none Child.leafContent =
      Except.error "PostCardComponent.Title must be used within a PostCardComponent" ∧
    renderChild none Child.leafAuthor =
      Except.error "PostCardComponent.Title must be used within a PostCardComponent" :=
  ⟨rfl, rfl, rfl, rfl, rfl⟩
